import Mathlib

/-!
Verification development for the OCR text-reconstruction pipeline of the
eduVision backend (src/services/ocrService.js).  The JavaScript source is
shallowly embedded: numbers become rationals, bounding boxes become lists of
rationals, strings become Lean strings, and the regex chains become explicit
scan-and-replace passes with JavaScript global-replace resumption semantics.
-/

set_option maxRecDepth 8000

namespace Ocr

/-! ## Configuration constants (CONFIG.INTELLIGENT_SPACING and friends) -/

def WORD_SPACING_THRESHOLD : ℚ := 1/2

def WIDE_SPACING_THRESHOLD : ℚ := 6/5

def LINE_HEIGHT_TOLERANCE : ℚ := 7/10

def PARAGRAPH_SPACING_THRESHOLD : ℚ := 2

def MIN_WORD_GAP_PIXELS : ℚ := 3

def MAX_FILE_SIZE_BYTES : Nat := 20 * 1024 * 1024

def TIMEOUT_SECONDS : Nat := 30

/-! ## Data model: words and lines carrying Azure-style 8-number bounding boxes.
The JavaScript code reads boundingBox as an array
[topLeftX, topLeftY, topRightX, topRightY, bottomRightX, bottomRightY,
 bottomLeftX, bottomLeftY]; a missing array is modelled as the empty list
(both fail the length check of the source and fall back to a plain space). -/

structure Word where
  text : String
  boundingBox : List ℚ

deriving DecidableEq

structure Line where
  words : List Word
  boundingBox : Option (List ℚ)

deriving DecidableEq

/-- Index access into a bounding box, as JavaScript array indexing on the
already length-checked arrays of the source. -/
def bbox (w : Word) (i : Nat) : ℚ := w.boundingBox.getD i 0

/-! ## Geometry derived in calculateSpacingBetweenWords (source lines 967-1007) -/

def wordLeft (w : Word) : ℚ := min (bbox w 0) (bbox w 6)

def wordRight (w : Word) : ℚ := max (bbox w 2) (bbox w 4)

def wordTop (w : Word) : ℚ := min (bbox w 1) (bbox w 3)

def wordBottom (w : Word) : ℚ := max (bbox w 7) (bbox w 5)

def wordHeight (w : Word) : ℚ := wordBottom w - wordTop w

def wordCenterY (w : Word) : ℚ := (wordTop w + wordBottom w) / 2

def horizontalGap (w1 w2 : Word) : ℚ := wordLeft w2 - wordRight w1

def verticalGap (w1 w2 : Word) : ℚ := wordTop w2 - wordBottom w1

def verticalCenterDistance (w1 w2 : Word) : ℚ := |wordCenterY w2 - wordCenterY w1|

def averageHeight (w1 w2 : Word) : ℚ := (wordHeight w1 + wordHeight w2) / 2

/-- The safe height used by the classifier: the average height when positive,
otherwise the 12-pixel default of the source. -/
def safeHeight (w1 w2 : Word) : ℚ :=
  if averageHeight w1 w2 > 0 then averageHeight w1 w2 else 12

/-- Same-line test of the source: center distance strictly below
LINE_HEIGHT_TOLERANCE times the safe height. -/
def sameLine (w1 w2 : Word) : Prop :=
  verticalCenterDistance w1 w2 < safeHeight w1 w2 * LINE_HEIGHT_TOLERANCE

instance (w1 w2 : Word) : Decidable (sameLine w1 w2) := by
  unfold sameLine; infer_instance

/-- Spacing classifier between two words, embedded from
calculateSpacingBetweenWords (source lines 954-1072).  The try/catch of the
source is dead in this pure embedding: none of the numeric operations can
throw, so the function is total and the catch branch (returning a single
space) is unreachable. -/
def calculateSpacingBetweenWords (w1 w2 : Word) : String :=
  if w1.boundingBox.length < 8 ∨ w2.boundingBox.length < 8 then " "
  else
    let h := safeHeight w1 w2
    if sameLine w1 w2 then
      if horizontalGap w1 w2 < 0 then ""
      else if horizontalGap w1 w2 ≤ MIN_WORD_GAP_PIXELS then ""
      else if horizontalGap w1 w2 ≤ h * WORD_SPACING_THRESHOLD then " "
      else if horizontalGap w1 w2 ≤ h * WIDE_SPACING_THRESHOLD then "  "
      else if horizontalGap w1 w2 ≤ h * 2 then "    "
      else "\t"
    else
      let lineGap := |verticalGap w1 w2|
      if lineGap ≤ h * (3/10) then " "
      else if lineGap ≤ h * (6/5) then "\n"
      else if lineGap ≤ h * PARAGRAPH_SPACING_THRESHOLD then "\n\n"
      else "\n\n\n"

/-! ## Line-pair spacing, embedded from calculateSpacingBetweenLines
(source lines 1162-1203).  It uses only the first line's height and returns a
newline for both of its first two branches. -/

def lineBBoxAt (l : Line) (i : Nat) : ℚ := (l.boundingBox.getD []).getD i 0

def lineBottomOf (l : Line) : ℚ :=
  max (max (lineBBoxAt l 1) (lineBBoxAt l 3)) (max (lineBBoxAt l 5) (lineBBoxAt l 7))

def lineTopOf (l : Line) : ℚ :=
  min (min (lineBBoxAt l 1) (lineBBoxAt l 3)) (min (lineBBoxAt l 5) (lineBBoxAt l 7))

def lineHeightOf (l : Line) : ℚ := lineBottomOf l - lineTopOf l

def calculateSpacingBetweenLines (l1 l2 : Line) : String :=
  if l1.boundingBox.isNone ∨ l2.boundingBox.isNone then "\n"
  else
    let line1Height := lineHeightOf l1
    let vGap := lineTopOf l2 - lineBottomOf l1
    if vGap ≤ line1Height * (3/10) then "\n"
    else if vGap ≤ line1Height * 1 then "\n"
    else if vGap ≤ line1Height * 2 then "\n\n"
    else "\n\n\n"

/-- The word Hello at box [0,0,50,0,50,20,0,20] of the boundary scenario. -/
def helloWord : Word := Word.mk "Hello" [0, 0, 50, 0, 50, 20, 0, 20]

/-- The word World at box [60,0,110,0,110,20,60,20] of the boundary scenario. -/
def worldWord : Word := Word.mk "World" [60, 0, 110, 0, 110, 20, 60, 20]

/-- First of two horizontally overlapping words sharing a line. -/
def overlapWord1 : Word := Word.mk "over" [0, 0, 50, 0, 50, 20, 0, 20]

/-- Second of two horizontally overlapping words sharing a line. -/
def overlapWord2 : Word := Word.mk "lap" [40, 0, 90, 0, 90, 20, 40, 20]

/-- A word whose horizontal extent covers [0,50] on the line at y in [0,20]. -/
def crossOverlapWord1 : Word := Word.mk "top" [0, 0, 50, 0, 50, 20, 0, 20]

/-- A word with the same horizontal extent but far below, y in [100,120]. -/
def crossOverlapWord2 : Word := Word.mk "bottom" [0, 100, 50, 100, 50, 120, 0, 120]

/-- A word on an upper line, y extent [0,20]. -/
def stackedWord1 : Word := Word.mk "up" [0, 0, 50, 0, 50, 20, 0, 20]

/-- A word on the next line down, y extent [40,60]. -/
def stackedWord2 : Word := Word.mk "down" [0, 40, 50, 40, 50, 60, 0, 60]

/-- An upper line with box [0,0,100,0,100,20,0,20], height 20. -/
def stackedLine1 : Line := Line.mk [] (some [0, 0, 100, 0, 100, 20, 0, 20])

/-- A lower line starting at y = 30, vertical gap 10 to the line above. -/
def stackedLine2 : Line := Line.mk [] (some [0, 30, 100, 30, 100, 50, 0, 50])

/-- An upper line with box [0,0,100,0,100,20,0,20], height 20. -/
def closeLine1 : Line := Line.mk [] (some [0, 0, 100, 0, 100, 20, 0, 20])

/-- A lower line starting at y = 22: vertical gap 2, well below 0.3 times the
height 20 of the line above. -/
def closeLine2 : Line := Line.mk [] (some [0, 22, 100, 22, 100, 42, 0, 42])

/-! ## Claim C4: the Azure polling loop of readTextFromFile
(source lines 594-618).  Each iteration of the do-while loop first suspends
for one second, then polls, then increments the attempt counter; the timeout
check (attempts greater or equal maxAttempts) runs before the while condition
and before the failed check, so it fires after the maxAttempts-th poll
regardless of that poll's status.  The poll schedule is modelled as a function
from the 1-based attempt number to the status string returned by the
recognition service; the result carries the number of polls made, which also
equals the number of one-second suspensions (one before every poll). -/

inductive LoopResult where
  | timedOut (polls : Nat)
  | failedErr (polls : Nat)
  | success (polls : Nat)

deriving DecidableEq

/-- One state of the do-while loop: about to perform poll number k with r
iterations left before the attempt cap forces the timeout.  When r = 0 the
source performs the poll, sees attempts reach maxAttempts and throws the
timeout error without inspecting the status. -/
def pollGo (poll : Nat → String) : Nat → Nat → LoopResult
  | k, 0 => .timedOut k
  | k, r + 1 =>
    if poll k = "notStarted" ∨ poll k = "running" then pollGo poll (k + 1) r
    else if poll k = "failed" then .failedErr k
    else .success k

/-- The polling loop of readTextFromFile with its attempt cap: polls start at
attempt 1 and the cap fires at attempt maxAttempts. -/
def readTextFromFileLoop (poll : Nat → String) (maxAttempts : Nat) : LoopResult :=
  pollGo poll 1 (maxAttempts - 1)

/-! ## Stable sort used by the overlay composer and the forced-spacing pass.
JavaScript Array.prototype.sort with a numeric comparator is stable; an
element b precedes a in the output when the comparator makes b strictly
smaller, and ties keep the original order.  Insertion sort with a strict
comparison implements exactly that. -/

def insertByLt {α : Type} (lt : α → α → Bool) (a : α) : List α → List α
  | [] => [a]
  | b :: bs => if lt b a then b :: insertByLt lt a bs else a :: b :: bs

def stableSortBy {α : Type} (lt : α → α → Bool) : List α → List α
  | [] => []
  | b :: bs => insertByLt lt b (stableSortBy lt bs)

/-! ## Claim C5: document-backed overlay coordinate transform, embedded from
createContinuousSearchablePdfFromPDF (source lines 1699-1773). -/

/-- JavaScript short-circuit or on a possibly-missing dimension: undefined and
0 are falsy and fall back to the default. -/
def jsOr (v : Option ℚ) (d : ℚ) : ℚ :=
  match v with
  | some w => if w = 0 then d else w
  | none => d

/-- Minimum x over the four corners of a word box, as
Math.min(bb[0], bb[2], bb[4], bb[6]) in the source. -/
def wordMinX (w : Word) : ℚ :=
  min (min (bbox w 0) (bbox w 2)) (min (bbox w 4) (bbox w 6))

/-- Minimum y over the four corners of a word box. -/
def wordMinY (w : Word) : ℚ :=
  min (min (bbox w 1) (bbox w 3)) (min (bbox w 5) (bbox w 7))

/-- Maximum y over the four corners of a word box. -/
def wordMaxY (w : Word) : ℚ :=
  max (max (bbox w 1) (bbox w 3)) (max (bbox w 5) (bbox w 7))

/-- The comparator (a, b) to a.boundingBox[0] - b.boundingBox[0] of the
source, as the strict precedence test of a stable sort. -/
def wordLt (a b : Word) : Bool := decide (bbox a 0 < bbox b 0)

def sortWordsByLeft (ws : List Word) : List Word := stableSortBy wordLt ws

/-- Draw position of one line of the document-backed overlay: sorts the words
left to right, takes the y extent of the first word, scales by
target-over-source dimensions (scale 1 when the source dimension is missing
or zero), flips y from top-origin OCR space to bottom-origin page space, and
clamps x into [0, pageW - 10] and y into [10, pageH - 10].  Lines without
words are skipped by the source and yield none here. -/
def drawPosition (line : Line) (pageW pageH : ℚ) (srcW srcH : Option ℚ) :
    Option (ℚ × ℚ) :=
  match sortWordsByLeft line.words with
  | [] => none
  | w :: _ =>
    let minY := wordMinY w
    let maxY := wordMaxY w
    let textHeight := maxY - minY
    let ocrPageHeight := jsOr srcH pageH
    let scaleX := pageW / jsOr srcW pageW
    let scaleY := pageH / ocrPageHeight
    let startX := wordMinX w * scaleX
    let pdfY := pageH - minY * scaleY - textHeight * scaleY
    let x := max 0 (min (pageW - 10) startX)
    let y := max 10 (min (pageH - 10) pdfY)
    some (x, y)

/-- Leftmost corner x of a whole line: the minimum over its words of each
word's minimum corner x. -/
def lineLeftmostX : List Word → ℚ
  | [] => 0
  | [w] => wordMinX w
  | w :: rest => min (wordMinX w) (lineLeftmostX rest)

/-- A line containing the single word of the coordinate-transform scenario:
source top-left corner (100, 100), height 20, on a 1000 by 1000 page. -/
def overlayLine : Line :=
  Line.mk [Word.mk "word" [100, 100, 150, 100, 150, 120, 100, 120]] none

/-- A line of two skewed quadrilaterals: the second word's top-left corner x
is 3, so the source sort puts it first, but its bottom-left corner sits at
x = 10 while the first word's bottom-left corner sits at x = 0, the leftmost
corner of the whole line. -/
def skewLine : Line :=
  Line.mk [Word.mk "A" [5, 0, 50, 0, 50, 20, 0, 20],
           Word.mk "B" [3, 0, 48, 0, 48, 20, 10, 20]] none

/-! ## JavaScript-style global regex replacement.
Every regex chain of the source is embedded as a sequence of scan passes.  A
matcher inspects the input at the current position and either returns the
replacement text together with the input remaining after the consumed match,
or fails.  The driver walks the string left to right: on a match it emits the
replacement and resumes after the consumed text, exactly like the lastIndex
resumption of a JavaScript global replace; otherwise it emits one character
and advances.  Every matcher below consumes at least one character, so a fuel
equal to the input length suffices. -/

def Matcher : Type := List Char → Option (List Char × List Char)

def gsubGo (m : Matcher) : Nat → List Char → List Char
  | 0, s => s
  | _ + 1, [] => []
  | fuel + 1, c :: cs =>
    match m (c :: cs) with
    | some (rep, rest) => rep ++ gsubGo m fuel rest
    | none => c :: gsubGo m fuel cs

def gsub (m : Matcher) (s : List Char) : List Char := gsubGo m s.length s

/-- The ASCII part of the JavaScript whitespace class backslash-s. -/
def isJsWs (c : Char) : Bool :=
  c == ' ' || c == '\t' || c == '\n' || c == '\r' || c == '\x0b' || c == '\x0c'

/-- The JavaScript word class backslash-w: ASCII letters, digits, underscore. -/
def isWordChar (c : Char) : Bool := c.isAlpha || c.isDigit || c == '_'

/-- Sentence punctuation class of the normalizer: period, bang, question. -/
def isPunctSentence (c : Char) : Bool := c == '.' || c == '!' || c == '?'

/-- Punctuation class of the last-resort pass, which adds comma, colon and
semicolon. -/
def isPunctBasic (c : Char) : Bool :=
  c == '.' || c == '!' || c == '?' || c == ',' || c == ':' || c == ';'

/-- Run of spaces and tabs collapsed to one space. -/
def matchSpaceTabRun : Matcher := fun s =>
  let n := (s.takeWhile (fun c => c == ' ' || c == '\t')).length
  if n = 0 then none else some ([' '], s.drop n)

/-- Run of four or more newlines collapsed to three. -/
def matchNewlineRun4 : Matcher := fun s =>
  let n := (s.takeWhile (fun c => c == '\n')).length
  if 4 ≤ n then some (['\n', '\n', '\n'], s.drop n) else none

/-- Spaces before a newline removed. -/
def matchSpacesNewline : Matcher := fun s =>
  let n := (s.takeWhile (fun c => c == ' ')).length
  if n = 0 then none
  else
    match s.drop n with
    | '\n' :: rest => some (['\n'], rest)
    | _ => none

/-- Spaces after a newline removed. -/
def matchNewlineSpaces : Matcher := fun s =>
  match s with
  | '\n' :: rest =>
    let n := (rest.takeWhile (fun c => c == ' ')).length
    if n = 0 then none else some (['\n'], rest.drop n)
  | _ => none

/-- Two adjacent characters of the given classes separated by a space. -/
def matchPair (p q : Char → Bool) : Matcher := fun s =>
  match s with
  | a :: b :: rest => if p a && q b then some ([a, ' ', b], rest) else none
  | _ => none

/-- A lowercase letter followed by an uppercase-lowercase pair, split after
the first letter (the camelCase pattern of the source). -/
def matchLowerUpperLower : Matcher := fun s =>
  match s with
  | a :: b :: c :: rest =>
    if a.isLower && b.isUpper && c.isLower then some ([a, ' ', b, c], rest) else none
  | _ => none

/-- Case-insensitive prefix strip returning the matched text as it appears. -/
def stripPrefixCI : List Char → List Char → Option (List Char × List Char)
  | [], s => some ([], s)
  | _ :: _, [] => none
  | p :: ps, c :: cs =>
    if p.toLower = c.toLower then
      match stripPrefixCI ps cs with
      | some (mid, rest) => some (c :: mid, rest)
      | none => none
    else none

/-- A dictionary word, matched case-insensitively, with a delimiter-class
character on each side; spaces are inserted around the word and the matched
text keeps its original case, as the capture groups of the source do. -/
def matchWordBetween (delim : Char → Bool) (w : List Char) : Matcher := fun s =>
  match s with
  | a :: rest =>
    if delim a then
      match stripPrefixCI w rest with
      | some (mid, b :: rest2) =>
        if delim b then some (a :: ' ' :: (mid ++ [' ', b]), rest2) else none
      | _ => none
    else none
  | [] => none

/-- Run of any whitespace collapsed to one space. -/
def matchWsRun : Matcher := fun s =>
  let n := (s.takeWhile isJsWs).length
  if n = 0 then none else some ([' '], s.drop n)

/-- JavaScript String.prototype.trim. -/
def jsTrim (s : List Char) : List Char :=
  ((s.dropWhile isJsWs).reverse.dropWhile isJsWs).reverse

/-- The 73 high-frequency words of the concatenation-fixing chain of
cleanAndFormatText, in source order (lines 1232-1308). -/
def cleanWordList : List String :=
  ["and", "the", "to", "of", "in", "for", "with", "that", "this", "from",
   "will", "have", "been", "were", "are", "not", "can", "all", "but", "was",
   "has", "had", "one", "you", "may", "use", "its", "your", "their", "what",
   "said", "each", "which", "do", "how", "if", "up", "out", "many", "then",
   "them", "these", "so", "some", "her", "would", "make", "like", "time",
   "very", "when", "come", "his", "here", "just", "long", "get", "own",
   "say", "she", "way", "too", "any", "day", "man", "new", "now", "old",
   "see", "him", "two", "more", "go", "no", "first", "call", "who"]

/-- The text normalizer cleanAndFormatText (source lines 1210-1314): the
whitespace passes, the boundary-insertion passes, the 73 word patterns with
word-character delimiters, the whitespace collapse and the final trim, in the
exact order of the source chain. -/
def cleanAndFormatText (rawText : String) : String :=
  if rawText = "" then ""
  else
    let s1 := gsub matchSpaceTabRun rawText.data
    let s2 := gsub matchNewlineRun4 s1
    let s3 := gsub matchSpacesNewline s2
    let s4 := gsub matchNewlineSpaces s3
    let s5 := gsub (matchPair Char.isLower Char.isUpper) s4
    let s6 := gsub (matchPair Char.isAlpha Char.isDigit) s5
    let s7 := gsub (matchPair Char.isDigit Char.isAlpha) s6
    let s8 := gsub (matchPair isPunctSentence Char.isUpper) s7
    let s9 := gsub matchLowerUpperLower s8
    let s10 := cleanWordList.foldl (fun t w => gsub (matchWordBetween isWordChar w.data) t) s9
    let s11 := gsub matchWsRun s10
    String.mk (jsTrim s11)

/-- The 20 words of the last-resort pattern pass (source lines 1499-1518). -/
def basicWordList : List String :=
  ["and", "the", "to", "of", "in", "for", "with", "that", "this", "from",
   "will", "have", "been", "were", "are", "not", "can", "all", "but", "was"]

/-- The last-resort pattern pass addBasicSpacingToText (source lines
1484-1524): untouched when the input is empty or already contains a space;
otherwise boundary insertions at lowercase-uppercase, letter-digit,
digit-letter and punctuation-letter transitions, then the 20 word patterns
with letter delimiters (their character classes are case-insensitive in the
source), then whitespace collapse and trim. -/
def addBasicSpacingToText (concatenatedText : String) : String :=
  if concatenatedText = "" ∨ concatenatedText.data.contains ' ' then concatenatedText
  else
    let s1 := gsub (matchPair Char.isLower Char.isUpper) concatenatedText.data
    let s2 := gsub (matchPair Char.isAlpha Char.isDigit) s1
    let s3 := gsub (matchPair Char.isDigit Char.isAlpha) s2
    let s4 := gsub (matchPair isPunctBasic Char.isAlpha) s3
    let s5 := basicWordList.foldl (fun t w => gsub (matchWordBetween Char.isAlpha w.data) t) s4
    let s6 := gsub matchWsRun s5
    String.mk (jsTrim s6)

/-! ## Claim C9: page-text assembly with the three-tier spacing escalation,
embedded from processOCRResults (source lines 706-725),
processWordsWithSpacing (1079-1117), processLinesWithIntelligentSpacing
(1124-1154) and applyForcedSpacingToCompactText (1377-1476). -/

def FORCE_SPACING_ON_NO_GAPS : Bool := true

/-- Word joining inside one line: each word is appended, followed by the
classifier separator when both bounding boxes carry at least 8 numbers and by
a plain space otherwise. -/
def processWordsWithSpacing : List Word -> String
  | [] => ""
  | [w] => w.text
  | w :: next :: rest =>
    (if 8 <= w.boundingBox.length /\ 8 <= next.boundingBox.length then
       w.text ++ calculateSpacingBetweenWords w next
     else w.text ++ " ") ++ processWordsWithSpacing (next :: rest)

/-- The line fold of processLinesWithIntelligentSpacing: lines without words
are skipped; a line separator is inserted before a line whose text is
non-blank whenever a previous non-blank line exists; the previous-line marker
only advances on non-blank lines. -/
def processLinesGo : List Line -> Option Line -> String -> String
  | [], _, acc => acc
  | l :: ls, prev, acc =>
    if l.words.isEmpty then processLinesGo ls prev acc
    else
      let lineText := processWordsWithSpacing l.words
      let acc2 :=
        match prev with
        | some p =>
          if jsTrim lineText.data = [] then acc ++ lineText
          else acc ++ calculateSpacingBetweenLines p l ++ lineText
        | none => acc ++ lineText
      let prev2 := if jsTrim lineText.data = [] then prev else some l
      processLinesGo ls prev2 acc2

def processLinesWithIntelligentSpacing (lines : List Line) : String :=
  processLinesGo lines none ""

/-- Comparator of the forced-spacing sort (source lines 1410-1460), expressed
as the strict precedence test of a stable sort: words whose tops differ by
more than half their average height order by top, otherwise by left edge. -/
def forcedCmpLt (a b : Word) : Bool :=
  let aTop := wordMinY a
  let bTop := wordMinY b
  let avgHeight := ((wordMaxY a - aTop) + (wordMaxY b - bTop)) / 2
  if |aTop - bTop| > avgHeight * (1/2) then decide (aTop < bTop)
  else decide (wordMinX a < wordMinX b)

/-- Joining the globally sorted words with the word-pair classifier between
consecutive words (source lines 1463-1473). -/
def joinWithSpacing : List Word -> String
  | [] => ""
  | [w] => w.text
  | w :: next :: rest =>
    w.text ++ calculateSpacingBetweenWords w next ++ joinWithSpacing (next :: rest)

/-- Second escalation tier applyForcedSpacingToCompactText: collects every
word of the page that carries at least 8 bounding numbers, re-sorts all of
them by position (top, then left, with the half-height same-line tolerance)
and re-derives the spacing from the sorted order. -/
def applyForcedSpacingToCompactText (lines : List Line) : String :=
  if lines.isEmpty then ""
  else
    let allWords :=
      (lines.map (fun l => l.words.filter (fun w => decide (8 <= w.boundingBox.length)))).flatten
    joinWithSpacing (stableSortBy forcedCmpLt allWords)

/-- Page-text assembly of processOCRResults (source lines 706-725): the
intelligent-spacing pass, escalated to the forced re-sort pass when its
output contains no space although some line has more than one word, and
escalated again to the pattern-based pass when the re-sort output still
contains no space. -/
def assemblePageText (lines : List Line) : String :=
  let pageText := processLinesWithIntelligentSpacing lines
  if FORCE_SPACING_ON_NO_GAPS && !(pageText.data.contains ' ') &&
      lines.any (fun l => decide (1 < l.words.length)) then
    let forced := applyForcedSpacingToCompactText lines
    if forced.data.contains ' ' then forced else addBasicSpacingToText forced
  else pageText

/-- A page with one line holding two adjacent words whose gap of one pixel is
below the minimum word gap, so intelligent spacing joins them with no space. -/
def escalationLines : List Line :=
  [Line.mk [Word.mk "Hello" [0, 0, 50, 0, 50, 20, 0, 20],
            Word.mk "World" [51, 0, 101, 0, 101, 20, 51, 20]]
     (some [0, 0, 101, 0, 101, 20, 0, 20])]

/-! ## Claim C10: the PDF text-existence probe, embedded from
checkPDFTextWithPdfParse (source lines 168-214).  The six indicator regexes
are counted over the raw bytes read as a binary string; each counter below
implements one regex with JavaScript global-scan semantics. -/

def countMatchesGo (m : List Char -> Option (List Char)) : Nat -> List Char -> Nat
  | 0, _ => 0
  | _ + 1, [] => 0
  | fuel + 1, c :: cs =>
    match m (c :: cs) with
    | some rest => countMatchesGo m fuel rest + 1
    | none => countMatchesGo m fuel cs

def countMatches (m : List Char -> Option (List Char)) (s : String) : Nat :=
  countMatchesGo m s.length s.data

/-- Exact literal prefix strip. -/
def stripLit : List Char -> List Char -> Option (List Char)
  | [], s => some s
  | _ :: _, [] => none
  | p :: ps, c :: cs => if p = c then stripLit ps cs else none

/-- A literal, optional whitespace, then a second literal: the shape of the
font-resource indicators (the whitespace class and the slash of the second
literal are disjoint, so the greedy skip needs no backtracking). -/
def litWsLit (w1 w2 : List Char) : List Char -> Option (List Char) := fun s =>
  match stripLit w1 s with
  | none => none
  | some r => stripLit w2 (r.dropWhile isJsWs)

/-- Lazy scan of the dot-star-question part of the BT indicator: stop at the
first ET, fail at a line terminator or at the end (the dot of the source
regex does not match newlines). -/
def lazyFindET : List Char -> Option (List Char)
  | [] => none
  | c :: cs =>
    match stripLit ['E', 'T'] (c :: cs) with
    | some rest => some rest
    | none => if c = Char.ofNat 10 \/ c = Char.ofNat 13 then none else lazyFindET cs

/-- Greedy backtracking over the whitespace-plus of the BT indicator: try the
longest whitespace run first, shrinking until the lazy ET scan succeeds. -/
def btTry (r : List Char) : Nat -> Option (List Char)
  | 0 => none
  | a + 1 =>
    match lazyFindET (r.drop (a + 1)) with
    | some rest => some rest
    | none => btTry r a

/-- The text-object indicator BT whitespace text ET. -/
def matchBT : List Char -> Option (List Char) := fun s =>
  match stripLit ['B', 'T'] s with
  | none => none
  | some r =>
    let wsMax := (r.takeWhile isJsWs).length
    if wsMax = 0 then none else btTry r wsMax

/-- Suffix starting at the last newline of a list, when one exists. -/
def lastNlSuffix : List Char -> Option (List Char)
  | [] => none
  | c :: cs =>
    match lastNlSuffix cs with
    | some suf => some suf
    | none => if c = Char.ofNat 10 then some (c :: cs) else none

/-- A text-showing operator followed by optional whitespace and a multiline
end-of-line anchor: the anchor holds at the end of the string, or before a
newline inside the whitespace run (greedy backtracking stops at the last
newline of the run). -/
def matchTjEnd (w : List Char) : List Char -> Option (List Char) := fun s =>
  match stripLit w s with
  | none => none
  | some r =>
    let run := r.takeWhile isJsWs
    let rest := r.drop run.length
    if rest = [] then some []
    else
      match lastNlSuffix run with
      | some suf => some (suf ++ rest)
      | none => none

/-- Total number of matches of the six text indicators of the source, in
source order: font type, two font subtypes, text objects, two text-showing
operators. -/
def countTextIndicators (pdfString : String) : Nat :=
  countMatches (litWsLit "/Type".data "/Font".data) pdfString +
  countMatches (litWsLit "/Subtype".data "/Type1".data) pdfString +
  countMatches (litWsLit "/Subtype".data "/TrueType".data) pdfString +
  countMatches matchBT pdfString +
  countMatches (matchTjEnd "Tj".data) pdfString +
  countMatches (matchTjEnd "TJ".data) pdfString

structure ProbeResult where
  hasText : Bool
  extractedText : String
  pageCount : Nat
  textLength : Nat

deriving DecidableEq

/-- The existence probe checkPDFTextWithPdfParse: hasText holds exactly when
the indicator count exceeds 5; the placeholder text, the simplified page
count 1 and the estimated text length follow the source. -/
def checkPDFTextWithPdfParse (pdfString : String) : ProbeResult :=
  let textIndicatorCount := countTextIndicators pdfString
  let hasText := decide (5 < textIndicatorCount)
  { hasText := hasText
    extractedText := if hasText then "[Text detected but not extracted]" else ""
    pageCount := 1
    textLength := if hasText then textIndicatorCount * 10 else 0 }

/-- A document with exactly six font-type indicator occurrences. -/
def sixFontsDoc : String :=
  "/Type /Font /Type /Font /Type /Font /Type /Font /Type /Font /Type /Font"

/-! ## Claim C1: error surfacing of extractText (source lines 222-312).
The whole body of extractText is one try block whose catch returns the
simulateOCR fallback, so no path reports an error to the caller: the size
and unsupported-type throws are swallowed by the catch like every other
failure.  The environment of one call is a record: the file path and MIME
type passed in, the file size from stat, the raw bytes for the PDF probe,
whether the Azure client is configured, and the outcome of the recognition
call as an exception monad value. -/

deriving instance DecidableEq for Except

structure OcrPage where
  lines : List Line
  width : Option Rat
  height : Option Rat

deriving DecidableEq

inductive ExtractOutcome where
  | skippedExisting (probe : ProbeResult)
  | simulated (filePath : String) (fileSize : Nat)
  | azure (pages : List OcrPage)

deriving DecidableEq

/-- The ocrEngine tag of each outcome, with the strings of the source. -/
def ocrEngineOf : ExtractOutcome -> String
  | .skippedExisting _ => "Existing PDF Text"
  | .simulated _ _ => "Simulation"
  | .azure _ => "Azure Computer Vision"

/-- The fallback simulateOCR (source lines 784-798): it sleeps, re-reads the
file size with an error-absorbing catch, and always returns the simulation
result; it cannot fail. -/
def simulateOCR (filePath : String) (fileSize : Nat) : ExtractOutcome :=
  .simulated filePath fileSize

structure ExtractInput where
  filePath : String
  mimetype : String
  fileSize : Nat
  pdfContent : String
  clientConfigured : Bool
  recognition : Except String (List OcrPage)

deriving DecidableEq

/-- The try block of extractText, in source order: argument check, size
check, PDF existing-text check, client-configuration check, MIME dispatch to
recognition, unsupported-type throw. -/
def extractTextTry (inp : ExtractInput) : Except String ExtractOutcome :=
  if inp.filePath = "" \/ inp.mimetype = "" then
    .error "File path and MIME type are required"
  else if MAX_FILE_SIZE_BYTES < inp.fileSize then
    .error "File size exceeds limit"
  else if inp.mimetype = "application/pdf" /\
      (checkPDFTextWithPdfParse inp.pdfContent).hasText = true then
    .ok (.skippedExisting (checkPDFTextWithPdfParse inp.pdfContent))
  else if inp.clientConfigured = false then
    .ok (simulateOCR inp.filePath inp.fileSize)
  else if inp.mimetype.startsWith "image/" = true \/ inp.mimetype = "application/pdf" then
    match inp.recognition with
    | .error e => .error e
    | .ok pages => .ok (.azure pages)
  else .error "Unsupported file type. Only images and PDFs are supported."

/-- extractText: the try block wrapped in the catch that converts every
internal error into the simulateOCR fallback result. -/
def extractText (inp : ExtractInput) : Except String ExtractOutcome :=
  match extractTextTry inp with
  | .ok r => .ok r
  | .error _ => .ok (simulateOCR inp.filePath inp.fileSize)

/-- An input whose size exceeds the 20971520-byte limit by one. -/
def oversizedInput : ExtractInput :=
  { filePath := "big.png", mimetype := "image/png", fileSize := 20971521,
    pdfContent := "", clientConfigured := true, recognition := .ok [] }

/-! ## Theorems -/

/-! ## Claim C8: malformed bounding boxes fall back to a single space -/

/-- Claim C8: for every pair of words where either bounding box is missing or
contains fewer than 8 numbers the spacing classifier returns exactly one ASCII
space; being a total Lean function it never throws, and the numeric branch of
the source cannot raise (the catch branch is unreachable in the embedding). -/
theorem malformed_bbox_single_space (w1 w2 : Word)
    (h : w1.boundingBox.length < 8 ∨ w2.boundingBox.length < 8) :
    calculateSpacingBetweenWords w1 w2 = " " := by
  unfold calculateSpacingBetweenWords
  simp [h]

/-- Witness for claim C8 at a concrete malformed input: the first word has no
bounding box at all and the classifier returns one space. -/
theorem malformed_bbox_single_space_witness :
    (Word.mk "a" []).boundingBox.length < 8 ∧
      calculateSpacingBetweenWords (Word.mk "a" [])
        (Word.mk "b" [0, 0, 10, 0, 10, 10, 0, 10]) = " " :=
  ⟨by decide,
   malformed_bbox_single_space (Word.mk "a" []) (Word.mk "b" [0, 0, 10, 0, 10, 10, 0, 10])
     (Or.inl (by decide))⟩

/-! ## Claim C3: same-line horizontal spacing table -/

/-- Claim C3: for words on the same line (center distance below 0.7 times the
average height, average height positive) with horizontal gap g and average
height h, the cascaded table of the classifier holds: a gap in
[0, minWordGapPixels] emits no separator; past that, a gap up to 0.5 h emits
exactly one space (including the boundary g = 0.5 h); then up to 1.2 h two
spaces; then up to 2 h four spaces; above 2 h one tab character. -/
theorem sameLine_spacing_table (w1 w2 : Word)
    (hb1 : w1.boundingBox.length = 8) (hb2 : w2.boundingBox.length = 8)
    (hh : 0 < averageHeight w1 w2)
    (hsl : verticalCenterDistance w1 w2 < averageHeight w1 w2 * LINE_HEIGHT_TOLERANCE) :
    (0 ≤ horizontalGap w1 w2 → horizontalGap w1 w2 ≤ MIN_WORD_GAP_PIXELS →
        calculateSpacingBetweenWords w1 w2 = "") ∧
    (MIN_WORD_GAP_PIXELS < horizontalGap w1 w2 →
        horizontalGap w1 w2 ≤ averageHeight w1 w2 * WORD_SPACING_THRESHOLD →
        calculateSpacingBetweenWords w1 w2 = " ") ∧
    (MIN_WORD_GAP_PIXELS < horizontalGap w1 w2 →
        averageHeight w1 w2 * WORD_SPACING_THRESHOLD < horizontalGap w1 w2 →
        horizontalGap w1 w2 ≤ averageHeight w1 w2 * WIDE_SPACING_THRESHOLD →
        calculateSpacingBetweenWords w1 w2 = "  ") ∧
    (MIN_WORD_GAP_PIXELS < horizontalGap w1 w2 →
        averageHeight w1 w2 * WIDE_SPACING_THRESHOLD < horizontalGap w1 w2 →
        horizontalGap w1 w2 ≤ averageHeight w1 w2 * 2 →
        calculateSpacingBetweenWords w1 w2 = "    ") ∧
    (MIN_WORD_GAP_PIXELS < horizontalGap w1 w2 →
        averageHeight w1 w2 * 2 < horizontalGap w1 w2 →
        calculateSpacingBetweenWords w1 w2 = "\t") := by
  have hsafe : safeHeight w1 w2 = averageHeight w1 w2 := by
    unfold safeHeight; simp [hh]
  have hsl2 : sameLine w1 w2 := by
    unfold sameLine; rw [hsafe]; exact hsl
  have hnl : ¬ (w1.boundingBox.length < 8 ∨ w2.boundingBox.length < 8) := by
    simp [hb1, hb2]
  have key : calculateSpacingBetweenWords w1 w2 =
      (if horizontalGap w1 w2 < 0 then ""
       else if horizontalGap w1 w2 ≤ MIN_WORD_GAP_PIXELS then ""
       else if horizontalGap w1 w2 ≤ averageHeight w1 w2 * WORD_SPACING_THRESHOLD then " "
       else if horizontalGap w1 w2 ≤ averageHeight w1 w2 * WIDE_SPACING_THRESHOLD then "  "
       else if horizontalGap w1 w2 ≤ averageHeight w1 w2 * 2 then "    "
       else "\t") := by
    unfold calculateSpacingBetweenWords
    rw [if_neg hnl]
    simp only [hsafe, hsl2, if_true]
  unfold MIN_WORD_GAP_PIXELS WORD_SPACING_THRESHOLD WIDE_SPACING_THRESHOLD at *
  refine ⟨?_, ?_, ?_, ?_, ?_⟩
  · intro hg0 hg3
    rw [key]
    rw [if_neg (by linarith), if_pos hg3]
  · intro hg3 hg12
    rw [key]
    rw [if_neg (by linarith), if_neg (by linarith), if_pos hg12]
  · intro hg3 hlo hhi
    rw [key]
    rw [if_neg (by linarith), if_neg (by linarith), if_neg (by linarith), if_pos hhi]
  · intro hg3 hlo hhi
    rw [key]
    rw [if_neg (by linarith), if_neg (by linarith), if_neg (by nlinarith),
      if_neg (by linarith), if_pos hhi]
  · intro hg3 hlo
    rw [key]
    rw [if_neg (by linarith), if_neg (by linarith), if_neg (by nlinarith),
      if_neg (by nlinarith), if_neg (by linarith)]

/-- Witness for claim C3: in the boundary scenario the horizontal gap is 10,
the average height is 20, and 10 = 0.5 times 20 lies exactly on the
normal-space boundary, so the decision is one space. -/
theorem sameLine_spacing_table_witness :
    calculateSpacingBetweenWords helloWord worldWord = " " :=
  (sameLine_spacing_table helloWord worldWord (by rfl) (by rfl)
    (by norm_num [averageHeight, wordHeight, wordBottom, wordTop, bbox, helloWord, worldWord])
    (by norm_num [verticalCenterDistance, wordCenterY, wordTop, wordBottom, averageHeight,
      wordHeight, bbox, LINE_HEIGHT_TOLERANCE, helloWord, worldWord])).2.1
    (by norm_num [MIN_WORD_GAP_PIXELS, horizontalGap, wordLeft, wordRight, bbox,
      helloWord, worldWord])
    (by norm_num [horizontalGap, wordLeft, wordRight, averageHeight, wordHeight, wordBottom,
      wordTop, bbox, WORD_SPACING_THRESHOLD, helloWord, worldWord])

/-! ## Claim C7: negative horizontal gap -/

/-- Claim C7 (amended): for every pair of same-line words with a negative
horizontal gap the classifier emits no separator.  The restriction to
same-line pairs is forced: on different lines the classifier ignores the
horizontal gap entirely. -/
theorem negative_gap_same_line_none (w1 w2 : Word)
    (hb1 : w1.boundingBox.length = 8) (hb2 : w2.boundingBox.length = 8)
    (hsl : sameLine w1 w2) (hg : horizontalGap w1 w2 < 0) :
    calculateSpacingBetweenWords w1 w2 = "" := by
  have hnl : ¬ (w1.boundingBox.length < 8 ∨ w2.boundingBox.length < 8) := by
    simp [hb1, hb2]
  unfold calculateSpacingBetweenWords
  rw [if_neg hnl]
  simp only [hsl, if_true, hg]

/-- Witness for claim C7: two same-line words whose boxes overlap by 10 pixels
produce the empty separator. -/
theorem negative_gap_same_line_none_witness :
    calculateSpacingBetweenWords overlapWord1 overlapWord2 = "" :=
  negative_gap_same_line_none overlapWord1 overlapWord2 (by rfl) (by rfl)
    (by norm_num [sameLine, safeHeight, averageHeight, wordHeight, wordBottom, wordTop,
      verticalCenterDistance, wordCenterY, bbox, LINE_HEIGHT_TOLERANCE,
      overlapWord1, overlapWord2])
    (by norm_num [horizontalGap, wordLeft, wordRight, bbox, overlapWord1, overlapWord2])

/-- Counterexample to claim C7 as stated: these two words have horizontal gap
-50 (the second starts left of where the first ends), yet because they lie on
different lines the classifier returns a section break of three newlines, not
the empty none decision. -/
theorem negative_gap_cross_line_counterexample :
    horizontalGap crossOverlapWord1 crossOverlapWord2 < 0 ∧
      calculateSpacingBetweenWords crossOverlapWord1 crossOverlapWord2 = "\n\n\n" ∧
      calculateSpacingBetweenWords crossOverlapWord1 crossOverlapWord2 ≠ "" := by
  refine ⟨?_, ?_, ?_⟩
  · norm_num [horizontalGap, wordLeft, wordRight, bbox, crossOverlapWord1, crossOverlapWord2]
  · norm_num [calculateSpacingBetweenWords, sameLine, safeHeight, averageHeight, wordHeight,
      wordBottom, wordTop, wordCenterY, verticalCenterDistance, horizontalGap, verticalGap,
      wordLeft, wordRight, bbox, MIN_WORD_GAP_PIXELS, WORD_SPACING_THRESHOLD,
      WIDE_SPACING_THRESHOLD, LINE_HEIGHT_TOLERANCE, PARAGRAPH_SPACING_THRESHOLD,
      crossOverlapWord1, crossOverlapWord2]
  · norm_num [calculateSpacingBetweenWords, sameLine, safeHeight, averageHeight, wordHeight,
      wordBottom, wordTop, wordCenterY, verticalCenterDistance, horizontalGap, verticalGap,
      wordLeft, wordRight, bbox, MIN_WORD_GAP_PIXELS, WORD_SPACING_THRESHOLD,
      WIDE_SPACING_THRESHOLD, LINE_HEIGHT_TOLERANCE, PARAGRAPH_SPACING_THRESHOLD,
      crossOverlapWord1, crossOverlapWord2]
    decide

/-! ## Claim C6: vertical spacing tables for word pairs and line pairs -/

/-- Claim C6 (amended): the vertical table of the claim governs the word-pair
classifier: for words not on the same line with vertical gap magnitude g and
average height h, g up to 0.3 h joins with a space, up to 1.2 h one newline,
up to 2 h two newlines, above 2 h three newlines.  The line-pair classifier
does not follow that table: it uses only the first line's height h1 and
returns one newline for any gap up to 1.0 h1 (gaps up to 0.3 h1 included, so
they are never joined with a space), two newlines up to 2 h1, and three
newlines beyond. -/
theorem vertical_spacing_tables (w1 w2 : Word) (l1 l2 : Line)
    (hb1 : w1.boundingBox.length = 8) (hb2 : w2.boundingBox.length = 8)
    (hh : 0 < averageHeight w1 w2) (hnsl : ¬ sameLine w1 w2)
    (hl1 : l1.boundingBox.isSome) (hl2 : l2.boundingBox.isSome)
    (hlh : 0 ≤ lineHeightOf l1) :
    ((|verticalGap w1 w2| ≤ averageHeight w1 w2 * (3/10) →
        calculateSpacingBetweenWords w1 w2 = " ") ∧
     (averageHeight w1 w2 * (3/10) < |verticalGap w1 w2| →
        |verticalGap w1 w2| ≤ averageHeight w1 w2 * (6/5) →
        calculateSpacingBetweenWords w1 w2 = "\n") ∧
     (averageHeight w1 w2 * (6/5) < |verticalGap w1 w2| →
        |verticalGap w1 w2| ≤ averageHeight w1 w2 * 2 →
        calculateSpacingBetweenWords w1 w2 = "\n\n") ∧
     (averageHeight w1 w2 * 2 < |verticalGap w1 w2| →
        calculateSpacingBetweenWords w1 w2 = "\n\n\n")) ∧
    ((lineTopOf l2 - lineBottomOf l1 ≤ lineHeightOf l1 * 1 →
        calculateSpacingBetweenLines l1 l2 = "\n") ∧
     (lineHeightOf l1 * 1 < lineTopOf l2 - lineBottomOf l1 →
        lineTopOf l2 - lineBottomOf l1 ≤ lineHeightOf l1 * 2 →
        calculateSpacingBetweenLines l1 l2 = "\n\n") ∧
     (lineHeightOf l1 * 2 < lineTopOf l2 - lineBottomOf l1 →
        calculateSpacingBetweenLines l1 l2 = "\n\n\n")) := by
  have hsafe : safeHeight w1 w2 = averageHeight w1 w2 := by
    unfold safeHeight; simp [hh]
  have hnl : ¬ (w1.boundingBox.length < 8 ∨ w2.boundingBox.length < 8) := by
    simp [hb1, hb2]
  have key : calculateSpacingBetweenWords w1 w2 =
      (if |verticalGap w1 w2| ≤ averageHeight w1 w2 * (3/10) then " "
       else if |verticalGap w1 w2| ≤ averageHeight w1 w2 * (6/5) then "\n"
       else if |verticalGap w1 w2| ≤ averageHeight w1 w2 * PARAGRAPH_SPACING_THRESHOLD
         then "\n\n"
       else "\n\n\n") := by
    unfold calculateSpacingBetweenWords
    rw [if_neg hnl]
    simp only [hsafe, hnsl, if_false]
  have hlnone : ¬ (l1.boundingBox.isNone ∨ l2.boundingBox.isNone) := by
    simp only [Option.isNone_iff_eq_none, not_or]
    constructor
    · intro hc; rw [hc] at hl1; simp at hl1
    · intro hc; rw [hc] at hl2; simp at hl2
  have keyL : calculateSpacingBetweenLines l1 l2 =
      (if lineTopOf l2 - lineBottomOf l1 ≤ lineHeightOf l1 * (3/10) then "\n"
       else if lineTopOf l2 - lineBottomOf l1 ≤ lineHeightOf l1 * 1 then "\n"
       else if lineTopOf l2 - lineBottomOf l1 ≤ lineHeightOf l1 * 2 then "\n\n"
       else "\n\n\n") := by
    unfold calculateSpacingBetweenLines
    rw [if_neg hlnone]
  unfold PARAGRAPH_SPACING_THRESHOLD at key
  refine ⟨⟨?_, ?_, ?_, ?_⟩, ?_, ?_, ?_⟩
  · intro hg; rw [key, if_pos hg]
  · intro hlo hhi; rw [key, if_neg (by linarith), if_pos hhi]
  · intro hlo hhi; rw [key, if_neg (by linarith), if_neg (by linarith), if_pos hhi]
  · intro hlo
    rw [key, if_neg (by linarith), if_neg (by linarith), if_neg (by linarith)]
  · intro hg
    rw [keyL]
    by_cases h3 : lineTopOf l2 - lineBottomOf l1 ≤ lineHeightOf l1 * (3/10)
    · rw [if_pos h3]
    · rw [if_neg h3, if_pos hg]
  · intro hlo hhi
    rw [keyL, if_neg (by linarith), if_neg (by linarith), if_pos hhi]
  · intro hlo
    rw [keyL, if_neg (by linarith), if_neg (by linarith), if_neg (by linarith)]

/-- Witness for claim C6: the stacked words have vertical gap 20 with average
height 20 (between 0.3 h and 1.2 h), so the word classifier emits one newline;
the stacked lines have vertical gap 10 with first-line height 20, so the line
classifier emits one newline. -/
theorem vertical_spacing_tables_witness :
    calculateSpacingBetweenWords stackedWord1 stackedWord2 = "\n" ∧
      calculateSpacingBetweenLines stackedLine1 stackedLine2 = "\n" := by
  have h := vertical_spacing_tables stackedWord1 stackedWord2 stackedLine1 stackedLine2
    (by rfl) (by rfl)
    (by norm_num [averageHeight, wordHeight, wordBottom, wordTop, bbox,
      stackedWord1, stackedWord2])
    (by norm_num [sameLine, safeHeight, averageHeight, wordHeight, wordBottom, wordTop,
      verticalCenterDistance, wordCenterY, bbox, LINE_HEIGHT_TOLERANCE,
      stackedWord1, stackedWord2])
    (by rfl) (by rfl)
    (by norm_num [lineHeightOf, lineBottomOf, lineTopOf, lineBBoxAt, stackedLine1])
  refine ⟨?_, ?_⟩
  · exact h.1.2.1
      (by norm_num [verticalGap, wordTop, wordBottom, averageHeight, wordHeight, bbox,
        stackedWord1, stackedWord2])
      (by norm_num [verticalGap, wordTop, wordBottom, averageHeight, wordHeight, bbox,
        stackedWord1, stackedWord2])
  · exact h.2.1
      (by norm_num [lineTopOf, lineBottomOf, lineHeightOf, lineBBoxAt,
        stackedLine1, stackedLine2])

/-- Counterexample to claim C6 as stated: for two lines whose vertical gap 2
is below 0.3 times the first-line height 20, the claimed table demands a
same-line join rendered as a single space, but calculateSpacingBetweenLines
returns a newline. -/
theorem line_join_space_counterexample :
    lineTopOf closeLine2 - lineBottomOf closeLine1 ≤ lineHeightOf closeLine1 * (3/10) ∧
      calculateSpacingBetweenLines closeLine1 closeLine2 = "\n" ∧
      calculateSpacingBetweenLines closeLine1 closeLine2 ≠ " " := by
  refine ⟨?_, ?_, ?_⟩
  · norm_num [lineTopOf, lineBottomOf, lineHeightOf, lineBBoxAt, closeLine1, closeLine2]
  · norm_num [calculateSpacingBetweenLines, lineTopOf, lineBottomOf, lineHeightOf,
      lineBBoxAt, closeLine1, closeLine2]
  · norm_num [calculateSpacingBetweenLines, lineTopOf, lineBottomOf, lineHeightOf,
      lineBBoxAt, closeLine1, closeLine2]
    decide

theorem pollGo_timedOut (poll : Nat → String) :
    ∀ r k j, pollGo poll k r = .timedOut j → j = k + r := by
  intro r
  induction r with
  | zero =>
    intro k j h
    simp only [pollGo, LoopResult.timedOut.injEq] at h
    omega
  | succ r ih =>
    intro k j h
    simp only [pollGo] at h
    split_ifs at h
    have := ih (k + 1) j h
    omega

theorem pollGo_failedErr (poll : Nat → String) :
    ∀ r k j, pollGo poll k r = .failedErr j →
      poll j = "failed" ∧ k ≤ j ∧ j < k + r := by
  intro r
  induction r with
  | zero =>
    intro k j h
    exact absurd h (by simp [pollGo])
  | succ r ih =>
    intro k j h
    simp only [pollGo] at h
    split_ifs at h with h1 h2
    · obtain ⟨hf, hk, hj⟩ := ih (k + 1) j h
      exact ⟨hf, by omega, by omega⟩
    · simp only [LoopResult.failedErr.injEq] at h
      subst h
      exact ⟨h2, le_refl k, by omega⟩

theorem pollGo_success (poll : Nat → String) :
    ∀ r k j, pollGo poll k r = .success j →
      poll j ≠ "notStarted" ∧ poll j ≠ "running" ∧ poll j ≠ "failed" ∧
        k ≤ j ∧ j < k + r := by
  intro r
  induction r with
  | zero =>
    intro k j h
    exact absurd h (by simp [pollGo])
  | succ r ih =>
    intro k j h
    simp only [pollGo] at h
    split_ifs at h with h1 h2
    · obtain ⟨ha, hb, hc, hk, hj⟩ := ih (k + 1) j h
      exact ⟨ha, hb, hc, by omega, by omega⟩
    · simp only [LoopResult.success.injEq] at h
      subst h
      push_neg at h1
      exact ⟨h1.1, h1.2, h2, le_refl k, by omega⟩

/-- Claim C4 (amended): the polling loop makes at most maxAttempts polls, one
per one-second suspension.  It ends in the timeout error exactly at the
attempt cap, and it does so regardless of the final poll's status (not only
while the status is still notStarted or running); it ends in the failure
error when a poll strictly before the cap reports failed, and in success when
a poll strictly before the cap reports any other terminal status.  A run
whose first 3 polls return running and whose 4th returns succeeded ends in
success after 4 polls, hence with exactly 3 suspensions between consecutive
polls. -/
theorem readTextFromFileLoop_spec (poll : Nat → String) (maxAttempts : Nat)
    (hmax : 1 ≤ maxAttempts) :
    (∀ j, readTextFromFileLoop poll maxAttempts = .timedOut j → j = maxAttempts) ∧
    (∀ j, readTextFromFileLoop poll maxAttempts = .failedErr j →
        poll j = "failed" ∧ 1 ≤ j ∧ j < maxAttempts) ∧
    (∀ j, readTextFromFileLoop poll maxAttempts = .success j →
        poll j ≠ "notStarted" ∧ poll j ≠ "running" ∧ poll j ≠ "failed" ∧
          1 ≤ j ∧ j < maxAttempts) ∧
    readTextFromFileLoop (fun k => if k ≤ 3 then "running" else "succeeded") 30 =
      .success 4 := by
  refine ⟨?_, ?_, ?_, ?_⟩
  · intro j h
    have := pollGo_timedOut poll (maxAttempts - 1) 1 j h
    omega
  · intro j h
    obtain ⟨hf, hk, hj⟩ := pollGo_failedErr poll (maxAttempts - 1) 1 j h
    exact ⟨hf, hk, by omega⟩
  · intro j h
    obtain ⟨ha, hb, hc, hk, hj⟩ := pollGo_success poll (maxAttempts - 1) 1 j h
    exact ⟨ha, hb, hc, hk, by omega⟩
  · decide

/-- Witness for claim C4: the 3-times-running-then-succeeded schedule ends in
success at the 4th poll. -/
theorem readTextFromFileLoop_spec_witness :
    readTextFromFileLoop (fun k => if k ≤ 3 then "running" else "succeeded") 30 =
      .success 4 :=
  (readTextFromFileLoop_spec (fun k => if k ≤ 3 then "running" else "succeeded") 30
    (by norm_num)).2.2.2

/-- Counterexample to claim C4 as stated: in a run whose first 29 polls return
running and whose 30th poll returns succeeded, the claim demands success, but
the loop throws the timeout error: the attempt cap fires after the 30th poll
even though the status is no longer notStarted or running. -/
theorem readTextFromFileLoop_counterexample :
    readTextFromFileLoop (fun k => if k < 30 then "running" else "succeeded") 30 =
        .timedOut 30 ∧
      (fun k => if k < 30 then "running" else "succeeded") 30 = "succeeded" := by
  constructor
  · decide
  · decide

theorem insertByLt_ne_nil {α : Type} (lt : α → α → Bool) (a : α) (l : List α) :
    insertByLt lt a l ≠ [] := by
  cases l with
  | nil => simp [insertByLt]
  | cons b bs =>
    simp only [insertByLt]
    split <;> simp

theorem stableSortBy_eq_nil {α : Type} (lt : α → α → Bool) (l : List α)
    (h : stableSortBy lt l = []) : l = [] := by
  cases l with
  | nil => rfl
  | cons a as =>
    exact absurd h (insertByLt_ne_nil lt a (stableSortBy lt as))

theorem sortWordsByLeft_head_min :
    ∀ (ws : List Word) (w : Word) (rest : List Word),
      sortWordsByLeft ws = w :: rest → ∀ x ∈ ws, bbox w 0 ≤ bbox x 0 := by
  intro ws
  induction ws with
  | nil =>
    intro w rest h
    simp [sortWordsByLeft, stableSortBy] at h
  | cons b bs ih =>
    intro w rest h x hx
    simp only [sortWordsByLeft, stableSortBy] at h
    rcases hs : stableSortBy wordLt bs with _ | ⟨c, cs⟩
    · rw [hs] at h
      simp only [insertByLt, List.cons.injEq] at h
      obtain ⟨hw, -⟩ := h
      rw [← hw]
      have hbs : bs = [] := stableSortBy_eq_nil wordLt bs hs
      subst hbs
      simp only [List.mem_singleton] at hx
      subst hx
      exact le_refl _
    · rw [hs] at h
      simp only [insertByLt] at h
      by_cases hcb : wordLt c b
      · rw [if_pos hcb, List.cons.injEq] at h
        obtain ⟨hw, -⟩ := h
        rw [← hw]
        simp only [List.mem_cons] at hx
        rcases hx with rfl | hx2
        · exact le_of_lt (of_decide_eq_true (by simpa [wordLt] using hcb))
        · exact ih c cs (by simp [sortWordsByLeft, hs]) x hx2
      · rw [if_neg hcb, List.cons.injEq] at h
        obtain ⟨hw, -⟩ := h
        rw [← hw]
        simp only [List.mem_cons] at hx
        rcases hx with rfl | hx2
        · exact le_refl _
        · have hcx : bbox c 0 ≤ bbox x 0 := ih c cs (by simp [sortWordsByLeft, hs]) x hx2
          have hbc : ¬ bbox c 0 < bbox b 0 := by simpa [wordLt] using hcb
          linarith [le_of_not_lt hbc]

/-- Claim C5 (amended): in the document-backed overlay, the drawn start X is
the clamp into [0, pageW - 10] of the minimum corner x of the first word in
boundingBox[0] order (the word whose recorded top-left corner x is smallest
on the line) times scaleX = pageW / sourceWidth, and the drawn Y is the clamp
into [10, pageH - 10] of pageH - scaledTop - scaledTextHeight computed from
that same word's vertical extent, not from the whole line; the drawn
coordinates always lie inside the clamp ranges, and the x scale factor is 1
when the source width is unknown.  For axis-aligned boxes that word's minimum
corner coincides with the line's leftmost corner, but not in general.  (The
per-page loop of the source only visits page indices below
min(recognizedPages, targetPages); this theorem describes what it does to
each visited line.) -/
theorem overlay_transform_spec (l : Line) (pageW pageH : ℚ) (srcW srcH : Option ℚ)
    (w : Word) (rest : List Word)
    (hsort : sortWordsByLeft l.words = w :: rest)
    (hW : 10 ≤ pageW) (hH : 20 ≤ pageH) :
    ∃ x y, drawPosition l pageW pageH srcW srcH = some (x, y) ∧
      0 ≤ x ∧ x ≤ pageW - 10 ∧ 10 ≤ y ∧ y ≤ pageH - 10 ∧
      (∀ v ∈ l.words, bbox w 0 ≤ bbox v 0) ∧
      x = max 0 (min (pageW - 10) (wordMinX w * (pageW / jsOr srcW pageW))) ∧
      y = max 10 (min (pageH - 10)
            (pageH - wordMinY w * (pageH / jsOr srcH pageH)
              - (wordMaxY w - wordMinY w) * (pageH / jsOr srcH pageH))) ∧
      (srcW = none →
        x = max 0 (min (pageW - 10) (wordMinX w))) := by
  have hdraw : drawPosition l pageW pageH srcW srcH =
      some (max 0 (min (pageW - 10) (wordMinX w * (pageW / jsOr srcW pageW))),
            max 10 (min (pageH - 10)
              (pageH - wordMinY w * (pageH / jsOr srcH pageH)
                - (wordMaxY w - wordMinY w) * (pageH / jsOr srcH pageH)))) := by
    unfold drawPosition
    rw [hsort]
  refine ⟨_, _, hdraw, ?_, ?_, ?_, ?_, ?_, rfl, rfl, ?_⟩
  · exact le_max_left _ _
  · exact max_le (by linarith) (min_le_left _ _)
  · exact le_max_left _ _
  · exact max_le (by linarith) (min_le_left _ _)
  · exact sortWordsByLeft_head_min l.words w rest hsort
  · intro hnone
    subst hnone
    have hpw : pageW ≠ 0 := by intro hc; rw [hc] at hW; norm_num at hW
    simp only [jsOr, div_self hpw, mul_one]

/-- Witness for claim C5: the scenario word mapped onto a 500 by 500 target
page lands at (50, 440), inside x range [0, 490] and y range [10, 490]. -/
theorem overlay_transform_spec_witness :
    (∃ x y, drawPosition overlayLine 500 500 (some 1000) (some 1000) = some (x, y) ∧
        0 ≤ x ∧ x ≤ 490 ∧ 10 ≤ y ∧ y ≤ 490) ∧
      drawPosition overlayLine 500 500 (some 1000) (some 1000) = some (50, 440) := by
  constructor
  · obtain ⟨x, y, h1, h2, h3, h4, h5, -⟩ :=
      overlay_transform_spec overlayLine 500 500 (some 1000) (some 1000)
        (Word.mk "word" [100, 100, 150, 100, 150, 120, 100, 120]) []
        (by rfl) (by norm_num) (by norm_num)
    refine ⟨x, y, h1, h2, by norm_num at h3 ⊢; exact h3, h4, by norm_num at h5 ⊢; exact h5⟩
  · norm_num [drawPosition, overlayLine, sortWordsByLeft, stableSortBy, insertByLt,
      wordMinX, wordMinY, wordMaxY, jsOr, bbox, min_def, max_def]

/-- Counterexample to claim C5 as stated: on a line of two skewed
quadrilaterals the word with the smallest recorded top-left corner x (3)
sorts first and the overlay draws at x = 3, while the line's leftmost corner
x overall is 0 (the bottom-left corner of the other word); with scale 1 the
claimed value, the clamp of the line's leftmost corner X times scaleX, is 0,
which differs from the drawn 3. -/
theorem overlay_leftmost_counterexample :
    drawPosition skewLine 500 500 none none = some (3, 480) ∧
      lineLeftmostX skewLine.words = 0 ∧
      max 0 (min ((500 : ℚ) - 10)
        (lineLeftmostX skewLine.words * (500 / jsOr none 500))) = 0 ∧
      (3 : ℚ) ≠ 0 := by
  refine ⟨?_, ?_, ?_, ?_⟩
  · norm_num [drawPosition, skewLine, sortWordsByLeft, stableSortBy, insertByLt, wordLt,
      wordMinX, wordMinY, wordMaxY, jsOr, bbox, min_def, max_def]
  · norm_num [lineLeftmostX, skewLine, wordMinX, bbox, min_def]
  · norm_num [lineLeftmostX, skewLine, wordMinX, bbox, jsOr, min_def, max_def]
  · norm_num

/-! ## Claim C2: idempotence of the normalizer -/

/-- Claim C2 fails on the code: the word patterns use global regexes whose
scan resumes after each consumed match, so overlapping occurrences of a
dictionary word are missed on the first pass and split only by a second
application.  At the failing input xandxandx the first application returns
the string x-space-and-space-xandx, which still contains the concatenation
xandx; the second application splits it, so applying the normalizer twice is
not a no-op.  Both applications of the source chain are evaluated here. -/
theorem cleanAndFormatText_not_idempotent :
    cleanAndFormatText "xandxandx" = "x and xandx" ∧
      cleanAndFormatText (cleanAndFormatText "xandxandx") = "x and x and x" ∧
      cleanAndFormatText (cleanAndFormatText "xandxandx") ≠
        cleanAndFormatText "xandxandx" := by
  refine ⟨by decide, by decide, by decide⟩

/-- Claim C9: when the intelligent-spacing pass yields a spaceless string
although some line of the page has more than one word, the assembly escalates
to the forced position-sorted pass, and further to the pattern-based pass
exactly when the forced pass also yields no space; the intelligently spaced
text is then never returned. -/
theorem forced_spacing_escalation (lines : List Line)
    (h1 : (processLinesWithIntelligentSpacing lines).data.contains ' ' = false)
    (h2 : lines.any (fun l => decide (1 < l.words.length)) = true) :
    assemblePageText lines =
      (if (applyForcedSpacingToCompactText lines).data.contains ' ' then
        applyForcedSpacingToCompactText lines
      else addBasicSpacingToText (applyForcedSpacingToCompactText lines)) := by
  simp only [assemblePageText, h1, h2, FORCE_SPACING_ON_NO_GAPS, Bool.not_false,
    Bool.and_self, Bool.true_and, Bool.and_true, if_true]

/-- Witness for claim C9: on the escalation page the first two tiers both
produce HelloWorld without a space, and the pattern-based tier splits the
lowercase-to-uppercase boundary, so the assembly returns Hello World. -/
theorem forced_spacing_escalation_witness :
    ((processLinesWithIntelligentSpacing escalationLines).data.contains ' ' = false /\
        escalationLines.any (fun l => decide (1 < l.words.length)) = true) /\
      assemblePageText escalationLines = "Hello World" := by
  have hspace : calculateSpacingBetweenWords
      (Word.mk "Hello" [0, 0, 50, 0, 50, 20, 0, 20])
      (Word.mk "World" [51, 0, 101, 0, 101, 20, 51, 20]) = "" := by
    norm_num [calculateSpacingBetweenWords, sameLine, safeHeight, averageHeight, wordHeight,
      wordBottom, wordTop, wordCenterY, verticalCenterDistance, horizontalGap, wordLeft,
      wordRight, bbox, MIN_WORD_GAP_PIXELS, LINE_HEIGHT_TOLERANCE]
  have hP : processLinesWithIntelligentSpacing escalationLines = "HelloWorld" := by
    rw [processLinesWithIntelligentSpacing]
    rw [escalationLines]
    rw [processLinesGo]
    norm_num [processWordsWithSpacing, hspace, processLinesGo, jsTrim, isJsWs]
    decide
  have hlt : forcedCmpLt (Word.mk "World" [51, 0, 101, 0, 101, 20, 51, 20])
      (Word.mk "Hello" [0, 0, 50, 0, 50, 20, 0, 20]) = false := by
    norm_num [forcedCmpLt, wordMinY, wordMaxY, wordMinX, bbox]
  have hF : applyForcedSpacingToCompactText escalationLines = "HelloWorld" := by
    rw [applyForcedSpacingToCompactText]
    norm_num [escalationLines, stableSortBy, insertByLt, hlt, joinWithSpacing, hspace]
    decide
  have hA : (processLinesWithIntelligentSpacing escalationLines).data.contains ' ' = false := by
    rw [hP]; decide
  have hB : escalationLines.any (fun l => decide (1 < l.words.length)) = true := by decide
  refine And.intro (And.intro hA hB) ?_
  rw [forced_spacing_escalation escalationLines hA hB, hF]
  decide

/-- Claim C10: the probe reports hasText exactly when the indicator count
exceeds 5; a document with 6 indicator matches reports hasText true and a
document with 0 matches reports hasText false. -/
theorem probe_threshold :
    (forall s : String,
        (checkPDFTextWithPdfParse s).hasText = decide (5 < countTextIndicators s)) /\
      countTextIndicators sixFontsDoc = 6 /\
      (checkPDFTextWithPdfParse sixFontsDoc).hasText = true /\
      countTextIndicators "" = 0 /\
      (checkPDFTextWithPdfParse "").hasText = false := by
  refine And.intro (fun s => rfl) (And.intro ?_ (And.intro ?_ (And.intro ?_ ?_)))
  · decide
  · decide
  · decide
  · decide

/-- Claim C1 (amended): extractText never surfaces an error to its caller.
An oversized input and an unsupported MIME type are thrown internally but
swallowed by the top-level catch, which returns the simulated fallback
result, exactly like a recognition failure; the only non-fallback outcomes
are the skipped-existing-text result and the real-recognition result, and
callers distinguish them by the engine tag. -/
theorem extractText_never_errors (inp : ExtractInput) :
    (exists r, extractText inp = .ok r) /\
    (MAX_FILE_SIZE_BYTES < inp.fileSize ->
      extractText inp = .ok (simulateOCR inp.filePath inp.fileSize)) /\
    (inp.mimetype.startsWith "image/" = false -> inp.mimetype ≠ "application/pdf" ->
      extractText inp = .ok (simulateOCR inp.filePath inp.fileSize)) /\
    (forall e, inp.recognition = .error e ->
      extractText inp = .ok (simulateOCR inp.filePath inp.fileSize) \/
      extractText inp =
        .ok (.skippedExisting (checkPDFTextWithPdfParse inp.pdfContent))) := by
  refine And.intro ?_ (And.intro ?_ (And.intro ?_ ?_))
  · unfold extractText extractTextTry
    split_ifs <;> first
      | exact Exists.intro _ rfl
      | (rcases hrec : inp.recognition with e | pages <;> simp [hrec])
  · intro hsize
    unfold extractText extractTextTry
    split_ifs <;> rfl
  · intro him hpdf
    unfold extractText extractTextTry
    split_ifs with h1 h2 h3 h4 h5 <;> first
      | rfl
      | exact absurd h3.1 hpdf
      | (rcases h5 with h5 | h5
         · rw [him] at h5; exact absurd h5 (by simp)
         · exact absurd h5 hpdf)
  · intro e hrec
    unfold extractText extractTextTry
    split_ifs <;> first
      | exact Or.inl rfl
      | exact Or.inr rfl
      | (rw [hrec]; exact Or.inl rfl)

/-- Counterexample to claim C1 as stated: an input over the size limit does
not produce a reported error; the thrown size error is caught and the caller
receives the ok simulation fallback. -/
theorem extractText_oversize_counterexample :
    MAX_FILE_SIZE_BYTES < oversizedInput.fileSize /\
      extractText oversizedInput = .ok (.simulated "big.png" 20971521) /\
      ocrEngineOf (.simulated "big.png" 20971521) = "Simulation" := by
  refine And.intro (by decide) (And.intro ?_ rfl)
  decide

/-- Witness for claim C1 at the oversized input: the amended theorem applied
there yields the ok simulation fallback. -/
theorem extractText_never_errors_witness :
    MAX_FILE_SIZE_BYTES < oversizedInput.fileSize /\
      extractText oversizedInput =
        .ok (simulateOCR oversizedInput.filePath oversizedInput.fileSize) :=
  And.intro (by decide) ((extractText_never_errors oversizedInput).2.1 (by decide))

end Ocr

